import Mathlib

/-!
Shallow embedding of the CCIP-Read metadata builder
(`rust/main/agents/relayer/src/msg/metadata/ccip_read/mod.rs`).

Strings are modelled as `List Char`; byte strings as `List Nat` (each entry
intended `< 256`).  The HTTP transport, the on-chain call and the ABI decoder
are external collaborators: they enter the model as explicit parameters
(an oracle from requests to endpoint outcomes, an `IsmOutcome`, and an
abstract ABI-decoding function).  Fallible Rust code returns an `Outcome`,
with a dedicated constructor for a Rust panic (out-of-bounds slice).
-/

namespace CcipRead

/-- Hexadecimal value of one character, accepting both cases, as the `hex`
crate's decoder does.  `none` for a non-hex character. -/
def hexDigitVal (c : Char) : Option Nat :=
  let n := c.toNat
  if 48 ≤ n ∧ n ≤ 57 then some (n - 48)
  else if 97 ≤ n ∧ n ≤ 102 then some (n - 87)
  else if 65 ≤ n ∧ n ≤ 70 then some (n - 55)
  else none

/-- Whether a character is a hexadecimal digit (`[[:xdigit:]]`). -/
def isHexDigitB (c : Char) : Bool :=
  (hexDigitVal c).isSome

/-- `hex::decode` (used as `hex_decode` in the source): pairs of hex digits
to bytes; fails on a non-hex character or an odd-length input. -/
def hex_decode : List Char → Option (List Nat)
  | [] => some []
  | [_] => none
  | c1 :: c2 :: rest =>
    match hexDigitVal c1, hexDigitVal c2 with
    | some hi, some lo =>
      match hex_decode rest with
      | some bs => some ((16 * hi + lo) :: bs)
      | none => none
    | _, _ => none

/-- Lowercase hex character for a digit value `< 16`. -/
def hexChar (n : Nat) : Char :=
  Char.ofNat (if n < 10 then 48 + n else 87 + n)

/-- Lowercase hex encoding of a byte string, two characters per byte
(`hex::encode`). -/
def hexEncode : List Nat → List Char
  | [] => []
  | b :: rest => hexChar (b / 16 % 16) :: hexChar (b % 16) :: hexEncode rest

/-- Modelled from the spec: `hyperlane_core::utils::bytes_to_hex` is not under
`src/`; the spec requires the sender to be "rendered as a full fixed-width
hexadecimal string (no truncation)", two hex characters per byte after a
`0x` prefix. -/
def bytes_to_hex (bs : List Nat) : List Char :=
  Char.ofNat 48 :: Char.ofNat 120 :: hexEncode bs

/-- The `OffchainLookup` descriptor decoded out of the module's revert
(sender address bytes, URL templates, call data, callback selector,
extra data). -/
structure OffchainLookup where
  sender : List Nat
  urls : List (List Char)
  call_data : List Nat
  callback_selector : List Nat
  extra_data : List Nat
deriving DecidableEq

/-- The literal token `{sender}` looked for in URL templates. -/
def senderTok : List Char := "\x7bsender\x7d".toList

/-- The literal token `{data}` looked for in URL templates. -/
def dataTok : List Char := "\x7bdata\x7d".toList

/-- `str::replace`, replacing every non-overlapping occurrence of `pat`
left to right.  The fuel argument is structural bookkeeping only: with
`fuel ≥ s.length` (as `replaceAll` supplies) it is never exhausted, since
every step consumes at least one character. -/
def replaceAllFuel (pat rep : List Char) : Nat → List Char → List Char
  | 0, s => s
  | _ + 1, [] => []
  | fuel + 1, c :: rest =>
    if pat ≠ [] ∧ pat.isPrefixOf (c :: rest) then
      rep ++ replaceAllFuel pat rep fuel (rest.drop (pat.length - 1))
    else
      c :: replaceAllFuel pat rep fuel rest

/-- `s.replace(pat, rep)` on `List Char`. -/
def replaceAll (pat rep s : List Char) : List Char :=
  replaceAllFuel pat rep s.length s

/-- `str::contains(pat)`: substring test. -/
def containsSub (s pat : List Char) : Bool :=
  match s with
  | [] => pat.isEmpty
  | _ :: rest => pat.isPrefixOf s || containsSub rest pat

/-- Sender rendered for substitution: `bytes_to_hex(info.sender.as_bytes())`
(source line 111). -/
def senderAsBytes (l : OffchainLookup) : List Char :=
  bytes_to_hex l.sender

/-- Call data rendered for substitution: `info.call_data.to_string()`
(source line 112); ethers' `Display for Bytes` prints `0x` followed by the
lowercase hex of the bytes. -/
def dataAsBytes (l : OffchainLookup) : List Char :=
  Char.ofNat 48 :: Char.ofNat 120 :: hexEncode l.call_data

/-- `url.replace("{sender}", ..).replace("{data}", ..)` (source lines
113–115). -/
def interpolatedUrl (l : OffchainLookup) (url : List Char) : List Char :=
  replaceAll dataTok (dataAsBytes l) (replaceAll senderTok (senderAsBytes l) url)

/-- The JSON body `{"sender": .., "data": ..}` sent on the POST path. -/
structure PostBody where
  sender : List Char
  data : List Char
deriving DecidableEq

/-- An outbound HTTP request as the fetch loop constructs it: either a GET of
the interpolated URL, or a POST with a JSON body and headers. -/
inductive HttpRequest where
  | get : List Char → HttpRequest
  | post : List Char → PostBody → List (List Char × List Char) → HttpRequest
deriving DecidableEq

/-- The single header set on the POST path:
`Content-Type: application/json`. -/
def contentTypeHeader : List (List Char × List Char) :=
  [("Content-Type".toList, "application/json".toList)]

/-- Request construction for one URL template (source lines 111–129): POST
with JSON body when the unsubstituted template lacks `{data}`, GET of the
fully substituted URL otherwise. -/
def mkRequest (l : OffchainLookup) (url : List Char) : HttpRequest :=
  if ¬ containsSub url dataTok then
    HttpRequest.post (interpolatedUrl l url)
      ⟨senderAsBytes l, dataAsBytes l⟩ contentTypeHeader
  else
    HttpRequest.get (interpolatedUrl l url)

/-- The `?`-propagated error sites of the builder. -/
inductive BuildErr where
  /-- `send().await?` / `reqwest::get(..).await?` failed (lines 126, 128). -/
  | netErr
  /-- `hex_decode(..)?` failed (line 71 or line 136). -/
  | hexDecodeErr
  /-- `OffchainLookup::decode(..)?` failed (line 71). -/
  | abiDecodeErr
deriving DecidableEq

/-- Outcome of running a fallible piece of the builder: a Rust panic, an
`eyre::Result::Err` (the `?` operator, tagged by which failing expression
raised it), or a normal return value. -/
inductive Outcome (α : Type) where
  | panics : Outcome α
  | fails : BuildErr → Outcome α
  | ok : α → Outcome α
deriving DecidableEq

/-- What one endpoint attempt yields, as seen through the transport:
`send()` itself fails; `res.json::<OffchainResponse>()` fails (JSON-parse
failure, missing or non-string `data` field, body-read failure); or a parsed
`OffchainResponse` whose `data` field is the given string. -/
inductive EndpointResult where
  | sendErr : EndpointResult
  | jsonErr : EndpointResult
  | jsonOk : List Char → EndpointResult
deriving DecidableEq

/-- `&result.data[2..]` (line 136): Rust byte-slicing panics when the index
exceeds the length; there is no length or prefix guard in the source. -/
def sliceFrom2 (s : List Char) : Option (List Char) :=
  if 2 ≤ s.length then some (s.drop 2) else none

/-- The `for url in info.urls.iter()` loop of `build` (lines 107–146), with
the transport abstracted as an oracle from requests to endpoint results.
Returns the outcome together with the list of requests actually issued, in
order. -/
def fetchLoop (l : OffchainLookup) (oracle : HttpRequest → EndpointResult) :
    List (List Char) → Outcome (Option (List Nat)) × List HttpRequest
  | [] => (Outcome.ok none, [])
  | url :: rest =>
    let req := mkRequest l url
    match oracle req with
    | EndpointResult.sendErr => (Outcome.fails BuildErr.netErr, [req])
    | EndpointResult.jsonErr =>
      let next := fetchLoop l oracle rest
      (next.1, req :: next.2)
    | EndpointResult.jsonOk d =>
      match sliceFrom2 d with
      | none => (Outcome.panics, [req])
      | some stripped =>
        match hex_decode stripped with
        | none => (Outcome.fails BuildErr.hexDecodeErr, [req])
        | some bytes => (Outcome.ok (some bytes), [req])

/-- What `ism.get_offchain_verify_info(..)` does on a cache miss: the call
either succeeds (`Ok(_)`), or reverts with an error whose textual
representation is the given string. -/
inductive IsmOutcome where
  | success : IsmOutcome
  | revert : List Char → IsmOutcome
deriving DecidableEq

/-- Longest prefix of hexadecimal digits (the greedy `[[:xdigit:]]+`). -/
def takeHexRun (s : List Char) : List Char :=
  s.takeWhile isHexDigitB

/-- Whether a string starts with a hexadecimal digit. -/
def headIsHex : List Char → Bool
  | [] => false
  | c :: _ => isHexDigitB c

/-- First (leftmost, greedy) match of the regex `0x[[:xdigit:]]+` in a
string: scan positions left to right; at the first position reading `0x`
followed by at least one hex digit, return `0x` plus the maximal digit
run. -/
def firstHexMatch : List Char → Option (List Char)
  | [] => none
  | [_] => none
  | c1 :: c2 :: rest =>
    if c1 = Char.ofNat 48 ∧ c2 = Char.ofNat 120 ∧ headIsHex rest then
      some (Char.ofNat 48 :: Char.ofNat 120 :: takeHexRun rest)
    else
      firstHexMatch (c2 :: rest)

/-- Side-effect counts of one resolver call: cache reads, cache writes, and
simulated on-chain calls. -/
structure ResolveEffects where
  reads : Nat
  writes : Nat
  ismCalls : Nat
deriving DecidableEq

/-- `call_get_offchain_verify_info` (source lines 42–90).  The cache content
for the one relevant key is `cached` (the cached-serialization round-trip is
lossless, so the cache is modelled as holding the descriptor itself); the
simulated on-chain call's behaviour is `ismOutcome`; `abi` is ethers'
`OffchainLookup::decode` on raw bytes, abstracted.  Returns the outcome
paired with the side-effect counts. -/
def call_get_offchain_verify_info (abi : List Nat → Option OffchainLookup)
    (cached : Option OffchainLookup) (ismOutcome : IsmOutcome) :
    Outcome (Option OffchainLookup) × ResolveEffects :=
  match cached with
  | some info => (Outcome.ok (some info), ⟨1, 1, 0⟩)
  | none =>
    match ismOutcome with
    | IsmOutcome.success => (Outcome.ok none, ⟨1, 0, 1⟩)
    | IsmOutcome.revert text =>
      match firstHexMatch text with
      | none => (Outcome.ok none, ⟨1, 0, 1⟩)
      | some m =>
        match hex_decode (m.drop 2) with
        | none => (Outcome.fails BuildErr.hexDecodeErr, ⟨1, 0, 1⟩)
        | some bytes =>
          match abi bytes with
          | none => (Outcome.fails BuildErr.abiDecodeErr, ⟨1, 0, 1⟩)
          | some info => (Outcome.ok (some info), ⟨1, 1, 1⟩)

/-- `build` (source lines 96–147): resolve the lookup (returning `Ok(None)`
when the resolver yields none, via `unwrap_or_none_result!`), then run the
fetch loop over `info.urls`.  Returns the outcome, the resolver's
side-effect counts, and the HTTP requests issued. -/
def build (abi : List Nat → Option OffchainLookup)
    (cached : Option OffchainLookup) (ismOutcome : IsmOutcome)
    (oracle : HttpRequest → EndpointResult) :
    Outcome (Option (List Nat)) × ResolveEffects × List HttpRequest :=
  match call_get_offchain_verify_info abi cached ismOutcome with
  | (Outcome.ok (some info), eff) =>
    let fetched := fetchLoop info oracle info.urls
    (fetched.1, eff, fetched.2)
  | (Outcome.ok none, eff) => (Outcome.ok none, eff, [])
  | (Outcome.fails e, eff) => (Outcome.fails e, eff, [])
  | (Outcome.panics, eff) => (Outcome.panics, eff, [])

/-! Concrete data used by witnesses and counterexamples. -/

/-- A 20-byte sender address with leading zero byte and `7b 6f` tail, as in
the spec's truncation example (`0x00c6…6f`). -/
def wSender : List Nat :=
  [0, 198, 106, 17, 34, 51, 68, 85, 102, 119,
   136, 153, 170, 187, 204, 221, 238, 255, 123, 111]

/-- First URL template, containing both tokens (GET shape). -/
def wUrlA : List Char := "https://a/\x7bsender\x7d/\x7bdata\x7d".toList

/-- Second URL template, lacking `{data}` (POST shape). -/
def wUrlB : List Char := "https://b/\x7bsender\x7d".toList

/-- A concrete resolved descriptor with two URLs. -/
def wLookup : OffchainLookup := ⟨wSender, [wUrlA, wUrlB], [1, 2], [], []⟩

/-- A concrete resolved descriptor with zero URLs. -/
def wEmptyLookup : OffchainLookup := ⟨wSender, [], [1, 2], [], []⟩

/-- A healthy endpoint response whose `data` field is `"0x1234"`. -/
def goodResp : EndpointResult := EndpointResult.jsonOk "0x1234".toList

/-- Transport where the first URL's request fails at `send()` and every
other request answers `{"data":"0x1234"}`. -/
def sendErrOnA : HttpRequest → EndpointResult := fun req =>
  if req = mkRequest wLookup wUrlA then EndpointResult.sendErr else goodResp

/-- Transport where the first URL's response fails JSON decoding and every
other request answers `{"data":"0x1234"}`. -/
def jsonErrOnA : HttpRequest → EndpointResult := fun req =>
  if req = mkRequest wLookup wUrlA then EndpointResult.jsonErr else goodResp

/-- Transport where the first URL answers `{"data":"0xzz"}` and every other
request answers `{"data":"0x1234"}`. -/
def badHexOnA : HttpRequest → EndpointResult := fun req =>
  if req = mkRequest wLookup wUrlA then EndpointResult.jsonOk "0xzz".toList
  else goodResp

/-- Transport where the first URL's response fails JSON decoding and every
other request answers `{"data":"0xzz"}`. -/
def jsonErrThenBadHex : HttpRequest → EndpointResult := fun req =>
  if req = mkRequest wLookup wUrlA then EndpointResult.jsonErr
  else EndpointResult.jsonOk "0xzz".toList

/-- Transport answering every request with `{"data":""}`. -/
def emptyDataOracle : HttpRequest → EndpointResult := fun _ =>
  EndpointResult.jsonOk []

/-- Transport answering every request with `{"data":"zz1234"}`. -/
def zzOracle : HttpRequest → EndpointResult := fun _ =>
  EndpointResult.jsonOk "zz1234".toList

/-- Transport answering every request with `{"data":"0x1234"}`. -/
def allGoodOracle : HttpRequest → EndpointResult := fun _ => goodResp

/-- ABI decoder that always fails. -/
def noAbi : List Nat → Option OffchainLookup := fun _ => none

/-- ABI decoder that always yields `wLookup`. -/
def constAbi : List Nat → Option OffchainLookup := fun _ => some wLookup

/-- A revert text carrying no `0x<hex>` substring. -/
def wRevertNoHex : List Char := "execution reverted: boom".toList

/-- A revert text carrying the hex run `0xdeadbeef`. -/
def wRevertHex : List Char := "revert data: 0xdeadbeef".toList

/-! Helper lemmas. -/

theorem hexDigitVal_hexChar : ∀ n < 16, hexDigitVal (hexChar n) = some n := by
  decide

theorem hexEncode_length (bs : List Nat) : (hexEncode bs).length = 2 * bs.length := by
  induction bs with
  | nil => rfl
  | cons b rest ih =>
    simp only [hexEncode, List.length_cons, ih]
    omega

theorem hex_decode_hexEncode (bs : List Nat) (h : ∀ b ∈ bs, b < 256) :
    hex_decode (hexEncode bs) = some bs := by
  induction bs with
  | nil => rfl
  | cons b rest ih =>
    have hb : b < 256 := h b (List.mem_cons_self b rest)
    have ih2 := ih (fun x hx => h x (List.mem_cons_of_mem b hx))
    have h1 : b / 16 % 16 < 16 := Nat.mod_lt _ (by omega)
    have h2 : b % 16 < 16 := Nat.mod_lt _ (by omega)
    simp only [hexEncode, hex_decode, hexDigitVal_hexChar _ h1,
      hexDigitVal_hexChar _ h2, ih2]
    have : 16 * (b / 16 % 16) + b % 16 = b := by omega
    rw [this]

theorem fetchLoop_trace_mem (l : OffchainLookup)
    (oracle : HttpRequest → EndpointResult) :
    ∀ urls req, req ∈ (fetchLoop l oracle urls).2 →
      ∃ url ∈ urls, req = mkRequest l url := by
  intro urls
  induction urls with
  | nil =>
    intro req h
    simp [fetchLoop] at h
  | cons url rest ih =>
    intro req h
    cases ho : oracle (mkRequest l url) with
    | sendErr =>
      simp [fetchLoop, ho] at h
      exact ⟨url, by simp, h⟩
    | jsonErr =>
      simp [fetchLoop, ho] at h
      rcases h with h | h
      · exact ⟨url, by simp, h⟩
      · obtain ⟨u, hu, he⟩ := ih req h
        exact ⟨u, by simp [hu], he⟩
    | jsonOk d =>
      cases hs : sliceFrom2 d with
      | none =>
        simp [fetchLoop, ho, hs] at h
        exact ⟨url, by simp, h⟩
      | some stripped =>
        cases hd : hex_decode stripped with
        | none =>
          simp [fetchLoop, ho, hs, hd] at h
          exact ⟨url, by simp, h⟩
        | some bytes =>
          simp [fetchLoop, ho, hs, hd] at h
          exact ⟨url, by simp, h⟩

theorem fetchLoop_skip_jsonErr (l : OffchainLookup)
    (oracle : HttpRequest → EndpointResult) (tail : List (List Char)) :
    ∀ pre : List (List Char),
      (∀ u ∈ pre, oracle (mkRequest l u) = EndpointResult.jsonErr) →
      fetchLoop l oracle (pre ++ tail) =
        ((fetchLoop l oracle tail).1,
          pre.map (mkRequest l) ++ (fetchLoop l oracle tail).2) := by
  intro pre
  induction pre with
  | nil =>
    intro _
    simp
  | cons u pre ih =>
    intro hpre
    have hu : oracle (mkRequest l u) = EndpointResult.jsonErr :=
      hpre u (by simp)
    have ih2 := ih (fun x hx => hpre x (by simp [hx]))
    simp [fetchLoop, hu, ih2]

/-! Claim theorems. -/

/-- Claim C4: for every message for which the module's
`get_offchain_verify_info` call succeeds without reverting (on a cache
miss, the only situation in which the call is made), `build` returns
`Ok(None)` — not an error — and issues no endpoint HTTP requests. -/
theorem claim4_success_returns_none (abi : List Nat → Option OffchainLookup)
    (oracle : HttpRequest → EndpointResult) :
    build abi none IsmOutcome.success oracle =
      (Outcome.ok none, ⟨1, 0, 1⟩, []) := rfl

/-- Claim C5: a revert text with no `0x<hex>` substring makes the resolver
return `Ok(None)` without error, independently of the ABI decoder (no ABI
decoding is attempted); when a hex run is found and its bytes fail ABI
decoding, the whole `build` aborts with a hard error. -/
theorem claim5_revert_decoding (text : List Char) :
    (firstHexMatch text = none →
      ∀ abi : List Nat → Option OffchainLookup,
        call_get_offchain_verify_info abi none (IsmOutcome.revert text) =
          (Outcome.ok none, ⟨1, 0, 1⟩)) ∧
    (∀ (m : List Char) (bytes : List Nat)
        (abi : List Nat → Option OffchainLookup)
        (oracle : HttpRequest → EndpointResult),
      firstHexMatch text = some m → hex_decode (m.drop 2) = some bytes →
        abi bytes = none →
        (build abi none (IsmOutcome.revert text) oracle).1 =
          Outcome.fails BuildErr.abiDecodeErr) := by
  constructor
  · intro h abi
    simp [call_get_offchain_verify_info, h]
  · intro m bytes abi oracle hm hd ha
    simp [build, call_get_offchain_verify_info, hm, hd, ha]

/-- Witness for C5: the no-hex revert text resolves to `Ok(None)`, and the
`0xdeadbeef` revert with a failing ABI decoder aborts `build`. -/
theorem claim5_witness :
    call_get_offchain_verify_info noAbi none (IsmOutcome.revert wRevertNoHex) =
      (Outcome.ok none, ⟨1, 0, 1⟩) ∧
    (build noAbi none (IsmOutcome.revert wRevertHex) allGoodOracle).1 =
      Outcome.fails BuildErr.abiDecodeErr :=
  ⟨(claim5_revert_decoding wRevertNoHex).1 (by decide) noAbi,
   (claim5_revert_decoding wRevertHex).2
     (Char.ofNat 48 :: Char.ofNat 120 :: "deadbeef".toList)
     [222, 173, 190, 239] noAbi allGoodOracle (by decide) (by decide) rfl⟩

/-- Claim C8: a resolved descriptor with an empty `urls` list makes the
fetch stage return `Ok(None)` at once with no request issued, and `build`
(here with the descriptor arriving via a cache hit) likewise returns
`Ok(None)` with an empty request trace — exactly as when no off-chain data
is required. -/
theorem claim8_empty_urls (l : OffchainLookup) (h : l.urls = [])
    (abi : List Nat → Option OffchainLookup) (ismo : IsmOutcome)
    (oracle : HttpRequest → EndpointResult) :
    fetchLoop l oracle l.urls = (Outcome.ok none, []) ∧
    build abi (some l) ismo oracle = (Outcome.ok none, ⟨1, 1, 0⟩, []) := by
  constructor
  · rw [h]
    rfl
  · simp [build, call_get_offchain_verify_info, h, fetchLoop]

/-- Witness for C8 at the concrete zero-URL descriptor. -/
theorem claim8_witness :
    fetchLoop wEmptyLookup allGoodOracle wEmptyLookup.urls =
      (Outcome.ok none, []) ∧
    build noAbi (some wEmptyLookup) IsmOutcome.success allGoodOracle =
      (Outcome.ok none, ⟨1, 1, 0⟩, []) :=
  claim8_empty_urls wEmptyLookup rfl noAbi IsmOutcome.success allGoodOracle

/-- Claim C9: `build` slices the response's `data` string as `data[2..]`
with no length or prefix guard, so a `data` field shorter than two bytes
(such as the empty string) makes the slice out of bounds — a panic, not an
endpoint failure and not a `None` result. -/
theorem claim9_short_data_panics (l : OffchainLookup)
    (oracle : HttpRequest → EndpointResult) (url : List Char)
    (rest : List (List Char)) (d : List Char)
    (h : oracle (mkRequest l url) = EndpointResult.jsonOk d)
    (hlen : d.length < 2) :
    fetchLoop l oracle (url :: rest) = (Outcome.panics, [mkRequest l url]) := by
  have hs : sliceFrom2 d = none := by
    simp [sliceFrom2]
    omega
  simp [fetchLoop, h, hs]

/-- Witness for C9: an endpoint answering `{"data":""}` panics the fetch. -/
theorem claim9_witness :
    fetchLoop wLookup emptyDataOracle (wUrlA :: [wUrlB]) =
      (Outcome.panics, [mkRequest wLookup wUrlA]) :=
  claim9_short_data_panics wLookup emptyDataOracle wUrlA [wUrlB] []
    rfl (by decide)

/-- Claim C10: the first two characters of the `data` field are stripped
unconditionally — there is no check that they are `0x` — so any two leading
characters followed by valid hexadecimal are accepted and the remainder is
hex-decoded into the returned proof bytes. -/
theorem claim10_no_prefix_check (l : OffchainLookup)
    (oracle : HttpRequest → EndpointResult) (url : List Char)
    (rest : List (List Char)) (a b : Char) (s : List Char) (bytes : List Nat)
    (h : oracle (mkRequest l url) = EndpointResult.jsonOk (a :: b :: s))
    (hdec : hex_decode s = some bytes) :
    fetchLoop l oracle (url :: rest) =
      (Outcome.ok (some bytes), [mkRequest l url]) := by
  have hs : sliceFrom2 (a :: b :: s) = some s := by
    simp [sliceFrom2]
  simp [fetchLoop, h, hs, hdec]

/-- Witness for C10: the response `{"data":"zz1234"}` is accepted and
decodes to the proof bytes `[0x12, 0x34]`. -/
theorem claim10_witness :
    fetchLoop wLookup zzOracle (wUrlA :: [wUrlB]) =
      (Outcome.ok (some [18, 52]), [mkRequest wLookup wUrlA]) :=
  claim10_no_prefix_check wLookup zzOracle wUrlA [wUrlB]
    (Char.ofNat 122) (Char.ofNat 122) "1234".toList [18, 52] rfl (by decide)

/-- Claim C6: every HTTP request the fetch loop issues comes from some URL
template of the list, and its shape follows the request-shape rule: a
template without the literal `{data}` token yields a POST to the
substituted URL with the JSON body `{"sender": .., "data": ..}` and the
`Content-Type: application/json` header; a template containing `{data}`
yields a GET of the fully substituted URL. -/
theorem claim6_request_shape (l : OffchainLookup)
    (oracle : HttpRequest → EndpointResult) (urls : List (List Char))
    (req : HttpRequest) (h : req ∈ (fetchLoop l oracle urls).2) :
    ∃ url ∈ urls,
      (containsSub url dataTok = false →
        req = HttpRequest.post (interpolatedUrl l url)
          ⟨senderAsBytes l, dataAsBytes l⟩ contentTypeHeader) ∧
      (containsSub url dataTok = true →
        req = HttpRequest.get (interpolatedUrl l url)) := by
  obtain ⟨url, hu, he⟩ := fetchLoop_trace_mem l oracle urls req h
  refine ⟨url, hu, ?_, ?_⟩
  · intro hc
    rw [he]
    simp [mkRequest, hc]
  · intro hc
    rw [he]
    simp [mkRequest, hc]

/-- Witness for C6 at the POST-shaped template `wUrlB` (no `{data}`). -/
theorem claim6_witness :
    ∃ url ∈ [wUrlB],
      (containsSub url dataTok = false →
        mkRequest wLookup wUrlB = HttpRequest.post (interpolatedUrl wLookup url)
          ⟨senderAsBytes wLookup, dataAsBytes wLookup⟩ contentTypeHeader) ∧
      (containsSub url dataTok = true →
        mkRequest wLookup wUrlB = HttpRequest.get (interpolatedUrl wLookup url)) :=
  claim6_request_shape wLookup allGoodOracle [wUrlB]
    (mkRequest wLookup wUrlB) (by decide)

/-- Claim C7 (spec-modelled `bytes_to_hex`): the rendered `{sender}`
substitution — `bytes_to_hex` of the 20 sender address bytes, exactly the
string substituted into URL templates and placed in the POST body — is the
full fixed-width hexadecimal string: 42 characters (`0x` plus two per
byte), and decoding the part after the prefix recovers every sender byte
exactly, so no characters are dropped. -/
theorem claim7_sender_full_width (l : OffchainLookup)
    (hlen : l.sender.length = 20) (hbytes : ∀ b ∈ l.sender, b < 256) :
    (senderAsBytes l).length = 42 ∧
    hex_decode ((senderAsBytes l).drop 2) = some l.sender := by
  constructor
  · simp [senderAsBytes, bytes_to_hex, hexEncode_length, hlen]
  · simp [senderAsBytes, bytes_to_hex, hex_decode_hexEncode l.sender hbytes]

/-- Witness for C7 at the concrete sender `0x00c6…7b6f` with a leading zero
byte. -/
theorem claim7_witness :
    (senderAsBytes wLookup).length = 42 ∧
    hex_decode ((senderAsBytes wLookup).drop 2) = some wLookup.sender :=
  claim7_sender_full_width wLookup (by decide) (by decide)

/-- Counterexample to C1: with two URLs where the first request fails at
`send()` and the second endpoint would answer `{"data":"0x1234"}`, the
fetch returns the network error to the caller (the `?` on `send()` /
`reqwest::get`), and the second URL is never tried — contradicting "any
network failure … fetch logs and continues to the next URL, and never
returns an error to the caller". -/
theorem claim1_counterexample :
    (fetchLoop wLookup sendErrOnA wLookup.urls).1 =
      Outcome.fails BuildErr.netErr ∧
    (fetchLoop wLookup sendErrOnA wLookup.urls).2 =
      [mkRequest wLookup wUrlA] ∧
    (build noAbi (some wLookup) IsmOutcome.success sendErrOnA).1 =
      Outcome.fails BuildErr.netErr := by
  decide

/-- Claim C1 as amended: only a failure of the response-body JSON decoding
(`res.json()`: JSON-parse failure, missing or malformed `data` field, or a
body-read failure) is treated as that endpoint having failed, with the
fetch continuing to the next URL; a network failure on issuing the GET or
POST request itself propagates out of the fetch as a hard error via `?`. -/
theorem claim1_amended (l : OffchainLookup)
    (oracle : HttpRequest → EndpointResult) (url : List Char)
    (rest : List (List Char)) :
    (oracle (mkRequest l url) = EndpointResult.jsonErr →
      fetchLoop l oracle (url :: rest) =
        ((fetchLoop l oracle rest).1,
          mkRequest l url :: (fetchLoop l oracle rest).2)) ∧
    (oracle (mkRequest l url) = EndpointResult.sendErr →
      fetchLoop l oracle (url :: rest) =
        (Outcome.fails BuildErr.netErr, [mkRequest l url])) := by
  constructor
  · intro h
    simp [fetchLoop, h]
  · intro h
    simp [fetchLoop, h]

/-- Witness for amended C1: a JSON failure on the first endpoint falls
through to the second (which succeeds), while a send failure on the first
endpoint aborts with an error. -/
theorem claim1_witness :
    fetchLoop wLookup jsonErrOnA (wUrlA :: [wUrlB]) =
      (Outcome.ok (some [18, 52]),
        [mkRequest wLookup wUrlA, mkRequest wLookup wUrlB]) ∧
    fetchLoop wLookup sendErrOnA (wUrlA :: [wUrlB]) =
      (Outcome.fails BuildErr.netErr, [mkRequest wLookup wUrlA]) :=
  ⟨((claim1_amended wLookup jsonErrOnA wUrlA [wUrlB]).1 (by decide)).trans
      (by decide),
   (claim1_amended wLookup sendErrOnA wUrlA [wUrlB]).2 (by decide)⟩

/-- Counterexample to C2: on a cache miss where the simulated on-chain call
unexpectedly succeeds, the resolver performs its one cache read but zero
cache writes — contradicting "exactly one cache write" on every call. -/
theorem claim2_counterexample :
    call_get_offchain_verify_info noAbi none IsmOutcome.success =
      (Outcome.ok none, ⟨1, 0, 1⟩) ∧
    ¬ (call_get_offchain_verify_info noAbi none IsmOutcome.success).2.writes
        = 1 := by
  decide

/-- Claim C2 as amended: every resolver call performs exactly one cache
read; every call that returns a resolved lookup (`Ok(Some _)`) performs
exactly one cache write, on cache hit and cache miss alike — in particular
on a hit the just-read value is unconditionally written back
(refresh-on-read).  Calls returning `Ok(None)` or an error write nothing. -/
theorem claim2_amended (abi : List Nat → Option OffchainLookup)
    (cached : Option OffchainLookup) (ismo : IsmOutcome) :
    (call_get_offchain_verify_info abi cached ismo).2.reads = 1 ∧
    (∀ info : OffchainLookup,
      (call_get_offchain_verify_info abi cached ismo).1 =
          Outcome.ok (some info) →
        (call_get_offchain_verify_info abi cached ismo).2.writes = 1) ∧
    (∀ info : OffchainLookup, cached = some info →
      call_get_offchain_verify_info abi cached ismo =
        (Outcome.ok (some info), ⟨1, 1, 0⟩)) ∧
    ((call_get_offchain_verify_info abi cached ismo).1 = Outcome.ok none →
      (call_get_offchain_verify_info abi cached ismo).2.writes = 0) ∧
    (∀ e : BuildErr,
      (call_get_offchain_verify_info abi cached ismo).1 = Outcome.fails e →
        (call_get_offchain_verify_info abi cached ismo).2.writes = 0) := by
  cases cached with
  | some info =>
    have he : call_get_offchain_verify_info abi (some info) ismo =
        (Outcome.ok (some info), ⟨1, 1, 0⟩) := rfl
    rw [he]
    refine ⟨rfl, fun i _ => rfl, fun i hi => ?_, fun h => ?_, fun e h => ?_⟩
    · simp only [Option.some.injEq] at hi
      rw [hi]
    · simp at h
    · simp at h
  | none =>
    cases ismo with
    | success =>
      have he : call_get_offchain_verify_info abi none IsmOutcome.success =
          (Outcome.ok none, ⟨1, 0, 1⟩) := rfl
      rw [he]
      exact ⟨rfl, fun i hi => by simp at hi, fun i hi => by simp at hi,
        fun _ => rfl, fun e h => by simp at h⟩
    | revert text =>
      cases hm : firstHexMatch text with
      | none =>
        have he : call_get_offchain_verify_info abi none
            (IsmOutcome.revert text) = (Outcome.ok none, ⟨1, 0, 1⟩) := by
          simp [call_get_offchain_verify_info, hm]
        rw [he]
        exact ⟨rfl, fun i hi => by simp at hi, fun i hi => by simp at hi,
          fun _ => rfl, fun e h => by simp at h⟩
      | some m =>
        cases hd : hex_decode (m.drop 2) with
        | none =>
          have he : call_get_offchain_verify_info abi none
              (IsmOutcome.revert text) =
              (Outcome.fails BuildErr.hexDecodeErr, ⟨1, 0, 1⟩) := by
            simp [call_get_offchain_verify_info, hm, hd]
          rw [he]
          exact ⟨rfl, fun i hi => by simp at hi, fun i hi => by simp at hi,
            fun h => by simp at h, fun e _ => rfl⟩
        | some bytes =>
          cases ha : abi bytes with
          | none =>
            have he : call_get_offchain_verify_info abi none
                (IsmOutcome.revert text) =
                (Outcome.fails BuildErr.abiDecodeErr, ⟨1, 0, 1⟩) := by
              simp [call_get_offchain_verify_info, hm, hd, ha]
            rw [he]
            exact ⟨rfl, fun i hi => by simp at hi, fun i hi => by simp at hi,
              fun h => by simp at h, fun e _ => rfl⟩
          | some info =>
            have he : call_get_offchain_verify_info abi none
                (IsmOutcome.revert text) =
                (Outcome.ok (some info), ⟨1, 1, 1⟩) := by
              simp [call_get_offchain_verify_info, hm, hd, ha]
            rw [he]
            exact ⟨rfl, fun i _ => rfl, fun i hi => by simp at hi,
              fun h => by simp at h, fun e h => by simp at h⟩

/-- Witness for amended C2: on a concrete cache hit the resolver reads
once, returns the cached lookup, and writes it back exactly once; on the
unexpected-success, no-hex-revert and ABI-failure paths it writes
nothing. -/
theorem claim2_witness :
    (call_get_offchain_verify_info noAbi (some wLookup)
        IsmOutcome.success).2.reads = 1 ∧
    (call_get_offchain_verify_info noAbi (some wLookup)
        IsmOutcome.success).2.writes = 1 ∧
    call_get_offchain_verify_info noAbi (some wLookup) IsmOutcome.success =
      (Outcome.ok (some wLookup), ⟨1, 1, 0⟩) ∧
    (call_get_offchain_verify_info noAbi none IsmOutcome.success).2.writes
        = 0 ∧
    (call_get_offchain_verify_info noAbi none
        (IsmOutcome.revert wRevertNoHex)).2.writes = 0 ∧
    (call_get_offchain_verify_info noAbi none
        (IsmOutcome.revert wRevertHex)).2.writes = 0 :=
  ⟨(claim2_amended noAbi (some wLookup) IsmOutcome.success).1,
   (claim2_amended noAbi (some wLookup) IsmOutcome.success).2.1 wLookup rfl,
   (claim2_amended noAbi (some wLookup) IsmOutcome.success).2.2.1
     wLookup rfl,
   (claim2_amended noAbi none IsmOutcome.success).2.2.2.1 rfl,
   (claim2_amended noAbi none (IsmOutcome.revert wRevertNoHex)).2.2.2.1
     (by decide),
   (claim2_amended noAbi none (IsmOutcome.revert wRevertHex)).2.2.2.2
     BuildErr.abiDecodeErr (by decide)⟩

/-- Counterexample to C3: with two URLs where the first endpoint answers
`{"data":"0xzz"}` and the second would answer `{"data":"0x1234"}`, the
fetch aborts with the hex-decode error (`hex_decode(..)?`) instead of
falling back to the second URL — contradicting "that endpoint is treated
as failed and fetch falls back to the next URL". -/
theorem claim3_counterexample :
    (fetchLoop wLookup badHexOnA wLookup.urls).1 =
      Outcome.fails BuildErr.hexDecodeErr ∧
    (fetchLoop wLookup badHexOnA wLookup.urls).2 =
      [mkRequest wLookup wUrlA] := by
  decide

/-- Claim C3 as amended: when the fetch loop reaches an endpoint — any
earlier endpoints having failed at response-JSON decoding — whose response
parses as JSON with a `data` field of at least two characters whose content
after the first two characters is not valid hexadecimal, the whole fetch —
and hence `build` — aborts with a hard hex-decode error at that endpoint;
the earlier endpoints were each tried once and no later URL is tried. -/
theorem claim3_amended (l : OffchainLookup)
    (oracle : HttpRequest → EndpointResult) (pre : List (List Char))
    (url : List Char) (rest : List (List Char)) (d : List Char)
    (hpre : ∀ u ∈ pre, oracle (mkRequest l u) = EndpointResult.jsonErr)
    (h : oracle (mkRequest l url) = EndpointResult.jsonOk d)
    (hlen : 2 ≤ d.length) (hbad : hex_decode (d.drop 2) = none) :
    fetchLoop l oracle (pre ++ url :: rest) =
      (Outcome.fails BuildErr.hexDecodeErr,
        pre.map (mkRequest l) ++ [mkRequest l url]) ∧
    (l.urls = pre ++ url :: rest →
      ∀ (abi : List Nat → Option OffchainLookup) (ismo : IsmOutcome),
        (build abi (some l) ismo oracle).1 =
          Outcome.fails BuildErr.hexDecodeErr) := by
  have hs : sliceFrom2 d = some (d.drop 2) := by
    simp [sliceFrom2, hlen]
  have hhead : fetchLoop l oracle (url :: rest) =
      (Outcome.fails BuildErr.hexDecodeErr, [mkRequest l url]) := by
    simp [fetchLoop, h, hs, hbad]
  have hloop : fetchLoop l oracle (pre ++ url :: rest) =
      (Outcome.fails BuildErr.hexDecodeErr,
        pre.map (mkRequest l) ++ [mkRequest l url]) := by
    rw [fetchLoop_skip_jsonErr l oracle (url :: rest) pre hpre, hhead]
  refine ⟨hloop, fun hurls abi ismo => ?_⟩
  simp [build, call_get_offchain_verify_info, hurls, hloop]

/-- Witness for amended C3: the first endpoint fails JSON decoding, the
second answers `{"data":"0xzz"}`, and the fetch and the surrounding `build`
abort with the hex-decode error after trying exactly those two
endpoints. -/
theorem claim3_witness :
    fetchLoop wLookup jsonErrThenBadHex ([wUrlA] ++ wUrlB :: []) =
      (Outcome.fails BuildErr.hexDecodeErr,
        [wUrlA].map (mkRequest wLookup) ++ [mkRequest wLookup wUrlB]) ∧
    (build noAbi (some wLookup) IsmOutcome.success jsonErrThenBadHex).1 =
      Outcome.fails BuildErr.hexDecodeErr :=
  ⟨(claim3_amended wLookup jsonErrThenBadHex [wUrlA] wUrlB [] "0xzz".toList
      (by decide) (by decide) (by decide) (by decide)).1,
   (claim3_amended wLookup jsonErrThenBadHex [wUrlA] wUrlB [] "0xzz".toList
      (by decide) (by decide) (by decide) (by decide)).2
     rfl noAbi IsmOutcome.success⟩

end CcipRead
